import Mathlib

/-!
Verification of the reconstruction-orchestration engine of the Paninis-eye
repository (backend_server.py, src/api/server.py, src/models/service.py,
src/models/panini_t5.py, src/models/panini_t5_simple.py).

Scores are embedded as rationals; each Python handler becomes a pure
function from its inputs (session store, backend outcome, connection
state, sampled generator outputs) to its response together with the list
of events it pushes on the per-session channel.
-/

namespace PaniniEye

/-! ### Constraint validator (`ConstraintDecoder`, src/models/panini_t5.py) -/

/-- Embedding of Python `str.endswith`: true iff `ending` is a suffix of
`token` (character-wise, as in the Devanagari comparisons of the source). -/
def ends_with (token ending : String) : Bool :=
  token.data.drop (token.data.length - ending.data.length) == ending.data

/-- The `valid_endings` table of `ConstraintDecoder._build_morphology_fst`:
masculine, feminine, neuter ending sets. -/
def valid_endings : List (List String) :=
  [["ः", "म्", "ौ", "े", "ान्", "ास्"],
   ["ा", "ाम्", "े", "ाः", "ास्", "ाभिः"],
   ["म्", "े", "ानि", "ेषु", "ैः"]]

/-- True iff the token ends with some ending of some gender class
(the loop condition inside `_is_morphologically_valid`). -/
def has_known_ending (token : String) : Bool :=
  valid_endings.any (fun endings => endings.any (fun e => ends_with token e))

/-- Embedding of `ConstraintDecoder._is_morphologically_valid`: empty tokens are invalid;
a token with a recognized ending returns True from the loop; the final
statement is `return True  # Default to valid for unknown patterns`. -/
def is_morphologically_valid (token : String) : Bool :=
  if token == "" then false
  else if has_known_ending token then true
  else true

/-- The vowel set "अआइईउऊएओ" used by `_is_valid_sandhi`. -/
def vowel_chars : List Char := ['अ', 'आ', 'इ', 'ई', 'उ', 'ऊ', 'ए', 'ओ']

/-- Embedding of `ConstraintDecoder._is_valid_sandhi`: empty operands are valid; a
vowel-vowel pair looks up the combination table but then
`return True  # Simplified`; all other pairs `return True  # Default`. -/
def is_valid_sandhi (token1 token2 : String) : Bool :=
  if token1 == "" || token2 == "" then true
  else
    match token1.data.getLast?, token2.data.head? with
    | some final_char, some initial_char =>
        if vowel_chars.contains final_char && vowel_chars.contains initial_char then
          true
        else true
    | _, _ => true

/-- Adjacent pairs `(tokens[i], tokens[i+1])` of the sandhi loop. -/
def adjacent_pairs : List String → List (String × String)
  | [] => []
  | [_] => []
  | a :: b :: rest => (a, b) :: adjacent_pairs (b :: rest)

/-- Embedding of `ConstraintDecoder.is_valid_sequence`: collects morphology violations
for every token, then sandhi violations for every adjacent pair, and
returns `(len(violations) == 0, violations)`. -/
def is_valid_sequence (tokens : List String) : Bool × List String :=
  let violations :=
    (tokens.filter (fun t => !is_morphologically_valid t)).map
      (fun t => "Invalid morphology: " ++ t)
    ++ ((adjacent_pairs tokens).filter (fun p => !is_valid_sandhi p.1 p.2)).map
      (fun p => "Invalid sandhi: " ++ p.1 ++ " + " ++ p.2)
  (violations.isEmpty, violations)

/-! ### Candidate scoring (`IntelligentSanskritGenerator`, src/models/panini_t5.py) -/

/-- The `scores` dictionary built by `_calculate_candidate_scores`. -/
structure Scores where
  lm_score : ℚ
  grammar_score : ℚ
  model_confidence : ℚ
  kg_compliance : ℚ
  combined : ℚ
deriving DecidableEq

/-- Embedding of `_calculate_kg_compliance`: base 0.8, plus 0.1 when the KG context has
sutras, capped at 1.0; the candidate text argument is unused by the source. -/
def calculate_kg_compliance (has_sutras : Bool) : ℚ :=
  min (if has_sutras then (8 : ℚ) / 10 + 1 / 10 else (8 : ℚ) / 10) 1

/-- Embedding of `_calculate_candidate_scores`: `grammar_out` / `conf_out` are the means
of the optional `grammar_score` / `confidence` entries of the forward-pass
outputs (defaults 0.8 and 0.75); `kg_context` is `none` when no KG context
was passed, otherwise carries whether it contains sutras. -/
def calculate_candidate_scores (grammar_out conf_out : Option ℚ)
    (kg_context : Option Bool) : Scores :=
  let lm : ℚ := 85 / 100
  let grammar := grammar_out.getD ((8 : ℚ) / 10)
  let conf := conf_out.getD ((3 : ℚ) / 4)
  let kg := match kg_context with
    | some has_sutras => calculate_kg_compliance has_sutras
    | none => (7 : ℚ) / 10
  { lm_score := lm
    grammar_score := grammar
    model_confidence := conf
    kg_compliance := kg
    combined := 3 / 10 * lm + 3 / 10 * grammar + 2 / 10 * conf + 2 / 10 * kg }

/-- One reconstruction candidate as built inside
`generate_intelligent_candidates` (text, generation strategy, scores;
the derived iast/morphology/translation fields are pure functions of
`text` and are not needed by the claims). -/
structure Candidate where
  text : String
  strategy : String
  scores : Scores
deriving DecidableEq

/-- The ordering used by `candidates.sort(key=lambda x: x.scores.get("combined", 0.0), reverse=True)`:
`a` may precede `b` iff the combined score of `a` is ≥ that of `b`. -/
def cand_order (a b : Candidate) : Prop :=
  b.scores.combined ≤ a.scores.combined

instance : DecidableRel cand_order :=
  fun a b => inferInstanceAs (Decidable (b.scores.combined ≤ a.scores.combined))

instance : IsTotal Candidate cand_order :=
  ⟨fun a b => le_total b.scores.combined a.scores.combined⟩

instance : IsTrans Candidate cand_order :=
  ⟨fun _ _ _ hab hbc => le_trans hbc hab⟩

/-- Python `list.sort` is stable; a stable descending sort by the combined
score is insertion sort under `cand_order`. -/
def rank_candidates (cands : List Candidate) : List Candidate :=
  List.insertionSort cand_order cands

/-- The candidate objects built by the generation loop of
`generate_intelligent_candidates`: one per sampled decoder output.
`draws` models the `(decoded_text, strategy)` pairs the sampler produced
(the source draws exactly `n_candidates` of them, one per loop index);
every candidate is scored by `_calculate_candidate_scores`. -/
def mk_candidates (draws : List (String × String))
    (grammar_out conf_out : Option ℚ) (kg_context : Option Bool) : List Candidate :=
  draws.map (fun d =>
    { text := d.1
      strategy := d.2
      scores := calculate_candidate_scores grammar_out conf_out kg_context })

/-- Embedding of `generate_intelligent_candidates` (src/models/panini_t5.py, tail of the
function): build the candidate list, sort by combined score descending
(stable), and return `candidates[:n_candidates]`. -/
def generate_intelligent_candidates (draws : List (String × String))
    (grammar_out conf_out : Option ℚ) (kg_context : Option Bool)
    (n_candidates : ℕ) : List Candidate :=
  (rank_candidates (mk_candidates draws grammar_out conf_out kg_context)).take n_candidates

/-! ### Main backend server (backend_server.py) -/

/-- A sutra citation as carried by the hardcoded fallback candidates. -/
structure SutraRef where
  id : String
  text : String
  description : String
deriving DecidableEq

/-- The `scores` dictionary of a candidate built by
`generate_enhanced_candidates`: note its keys are `lm_score`,
`kg_confidence`, `grammar_score`, `combined` (there is no
`model_confidence` or `kg_compliance` key in this shape). -/
structure EnhancedScores where
  lm_score : ℚ
  kg_confidence : ℚ
  grammar_score : ℚ
  combined : ℚ
deriving DecidableEq

/-- The `uncertainty_scores` dictionary of a fallback candidate. -/
structure UncertaintyScores where
  epistemic_uncertainty : ℚ
  aleatoric_uncertainty : ℚ
  confidence : ℚ
deriving DecidableEq

/-- One hardcoded candidate of `generate_enhanced_candidates`. -/
structure EnhancedCandidate where
  candidate_id : String
  sanskrit_text : String
  iast : String
  morph_seg : List String
  sutras : List SutraRef
  literal_gloss : String
  idiomatic_translation : String
  scores : EnhancedScores
  generation_strategy : String
  uncertainty_scores : UncertaintyScores
deriving DecidableEq

/-- The fixed `sanskrit_candidates` pool of
`generate_enhanced_candidates` (backend_server.py lines 309-381). -/
def sanskrit_candidates : List EnhancedCandidate :=
  [{ candidate_id := "cand_0"
     sanskrit_text := "गच्छति"
     iast := "gacchati"
     morph_seg := ["गम्", "छ", "ति"]
     sutras := [{ id := "3.1.44", text := "छन्दसि लुङ्लङ्लृङ्क्ष्वडुदात्तः",
                  description := "Verbal root transformation" },
                { id := "3.4.78", text := "तिप्तस्झि",
                  description := "Present tense endings" }]
     literal_gloss := "goes"
     idiomatic_translation := "goes/moves/travels"
     scores := { lm_score := 94 / 100, kg_confidence := 96 / 100,
                 grammar_score := 95 / 100, combined := 95 / 100 }
     generation_strategy := "grammar_guided"
     uncertainty_scores := { epistemic_uncertainty := 3 / 100,
                             aleatoric_uncertainty := 2 / 100,
                             confidence := 95 / 100 } },
   { candidate_id := "cand_1"
     sanskrit_text := "तिष्ठति"
     iast := "tiṣṭhati"
     morph_seg := ["स्था", "ति"]
     sutras := [{ id := "6.4.112", text := "श्नाभ्यस्तयोरातः",
                  description := "Root modification rule" },
                { id := "3.4.78", text := "तिप्तस्झि",
                  description := "Present tense endings" }]
     literal_gloss := "stands/stays"
     idiomatic_translation := "remains/dwells/stays"
     scores := { lm_score := 91 / 100, kg_confidence := 93 / 100,
                 grammar_score := 94 / 100, combined := 92 / 100 }
     generation_strategy := "contextual"
     uncertainty_scores := { epistemic_uncertainty := 6 / 100,
                             aleatoric_uncertainty := 4 / 100,
                             confidence := 90 / 100 } },
   { candidate_id := "cand_2"
     sanskrit_text := "रक्षति"
     iast := "rakṣati"
     morph_seg := ["रक्ष्", "ति"]
     sutras := [{ id := "3.4.78", text := "तिप्तस्झि",
                  description := "Present tense verbal endings" }]
     literal_gloss := "protects"
     idiomatic_translation := "protects/guards/defends"
     scores := { lm_score := 88 / 100, kg_confidence := 90 / 100,
                 grammar_score := 92 / 100, combined := 89 / 100 }
     generation_strategy := "semantic_similarity"
     uncertainty_scores := { epistemic_uncertainty := 8 / 100,
                             aleatoric_uncertainty := 6 / 100,
                             confidence := 86 / 100 } }]

/-- The result dictionary of `generate_enhanced_candidates`: the fixed
candidate pool, fixed timings, and `metadata.fallback_mode = True`
(the two session-derived metadata entries, ocr confidence and the share
of Sanskrit tokens, are not used by any claim and are elided). -/
structure EnhancedResult where
  candidates : List EnhancedCandidate
  total_ms : ℚ
  model_inference_ms : ℚ
  kg_lookup_ms : ℚ
  constraint_application_ms : ℚ
  fallback_mode : Bool
deriving DecidableEq

/-- Embedding of `generate_enhanced_candidates` (backend_server.py). -/
def generate_enhanced_candidates : EnhancedResult :=
  { candidates := sanskrit_candidates
    total_ms := 1800
    model_inference_ms := 1200
    kg_lookup_ms := 400
    constraint_application_ms := 200
    fallback_mode := true }

/-- A mask record of a stored session (fields used by the reconstruct path). -/
structure Mask where
  mask_id : String
  bbox : List ℤ
deriving DecidableEq

/-- A stored session, as placed in the `sessions` dict by `/upload`
(fields consumed by the reconstruct path). -/
structure Session where
  ocr_text_preview : String
  masks : List Mask
deriving DecidableEq

/-- Outcome of one HTTP POST to the model service, as observed by
`call_model_service`: a 200 response carrying the decoded candidate list,
a non-200 status, or a connection failure. -/
inductive BackendOutcome
  | responds (candidates : List Candidate)
  | errorStatus (code : ℕ)
  | unreachable
deriving DecidableEq

/-- Embedding of `call_model_service`: a 200 response is returned; a non-200 status
raises `Exception(f"Model service returned {status}")`; a connection
failure re-raises the underlying exception. -/
def call_model_service (backend : BackendOutcome) : Except String (List Candidate) :=
  match backend with
  | .responds candidates => .ok candidates
  | .errorStatus code => .error ("Model service returned " ++ toString code)
  | .unreachable => .error "connection failed"

/-- An event pushed on the per-session live channel. -/
inductive Event
  | progress (value : ℕ) (stage : String)
  | error (message : String)
deriving DecidableEq

/-- Sends via `ConnectionManager.send_message` are attempted only when the session id
is in `active_connections`; `connected` models that membership for the run. -/
def emit (connected : Bool) (e : Event) : List Event :=
  if connected then [e] else []

/-- Response of `backend_server.reconstruct_text`: the not-found error
dictionary (`error` set, `candidates` empty), a passthrough of the model
service result, or the local fallback payload. -/
inductive ReconOutcome
  | sessionNotFound
  | fromModel (candidates : List Candidate)
  | fallback (result : EnhancedResult)
deriving DecidableEq

/-- Embedding of `backend_server.reconstruct_text` (lines 224-287): resolve the session
(missing session returns the error dictionary before any event); emit
progress 25 and 50; call the model service; on any failure fall back to
`generate_enhanced_candidates`; emit progress 100; return the result. -/
def reconstruct_text (sessions : List (String × Session)) (session_id : String)
    (backend : BackendOutcome) (connected : Bool) : ReconOutcome × List Event :=
  match List.lookup session_id sessions with
  | none => (.sessionNotFound, [])
  | some _ =>
    let ev1 := emit connected (.progress 25 "Preparing data")
    let ev2 := emit connected (.progress 50 "AI Processing")
    match call_model_service backend with
    | .ok candidates =>
        (.fromModel candidates, ev1 ++ ev2 ++ emit connected (.progress 100 "Complete"))
    | .error _ =>
        (.fallback generate_enhanced_candidates,
         ev1 ++ ev2 ++ emit connected (.progress 100 "Complete"))

/-! ### API gateway (src/api/server.py) -/

/-- Response of the gateway `reconstruct_text`: a 200 result or an
`HTTPException` with status code and detail. -/
inductive ApiOutcome
  | ok (candidates : List Candidate)
  | httpError (status_code : ℕ) (detail : String)
deriving DecidableEq

/-- Gateway `reconstruct_text` (src/api/server.py lines 172-236). The
own `except Exception` clause of the handler also catches the `HTTPException`
values it raises, sends an error event, and re-raises
`HTTPException(500, str(e))`; `str` of a FastAPI `HTTPException(c, d)` is
`f"{c}: {d}"`. Hence a missing session yields HTTP 500 with detail
"404: Session not found" plus one error event, and a non-200 model
response yields two error events and HTTP 500. -/
def api_reconstruct_text (session_store : List (String × Session)) (image_id : String)
    (backend : BackendOutcome) (connected : Bool) : ApiOutcome × List Event :=
  match List.lookup image_id session_store with
  | none =>
      (.httpError 500 "404: Session not found",
       emit connected (.error "404: Session not found"))
  | some _ =>
    let ev1 := emit connected (.progress 10 "Initializing")
    match backend with
    | .responds candidates =>
        (.ok candidates, ev1 ++ emit connected (.progress 100 "Complete"))
    | .errorStatus _ =>
        (.httpError 500 "500: Model service failed",
         ev1 ++ emit connected (.error "Model service failed")
             ++ emit connected (.error "500: Model service failed"))
    | .unreachable =>
        (.httpError 500 "connection failed",
         ev1 ++ emit connected (.error "connection failed"))

/-- The progress values of a channel trace, in emission order. -/
def progress_values : List Event → List ℕ
  | [] => []
  | .progress v _ :: rest => v :: progress_values rest
  | .error _ :: rest => progress_values rest

/-- True iff no progress event follows any error event of the trace. -/
def no_progress_after_error : List Event → Bool
  | [] => true
  | .progress _ _ :: rest => no_progress_after_error rest
  | .error _ :: rest => (progress_values rest).isEmpty

/-- Whether a backend-server reconstruct response is a success payload
(a candidate list was returned, genuine or fallback). -/
def recon_success : ReconOutcome → Bool
  | .sessionNotFound => false
  | .fromModel _ => true
  | .fallback _ => true

/-- Whether a gateway reconstruct response is a 200. -/
def api_success : ApiOutcome → Bool
  | .ok _ => true
  | .httpError _ _ => false

/-! ### Model service (src/models/service.py) -/

/-- The methods bound to `ModelService` by its class body (src/models/service.py
lines 48-352). `_generate_fallback_candidates` and `_simple_to_iast` are
defined at lines 399-440, inside the module-level `if __name__ == "__main__":`
block after the blocking `uvicorn.run` call, so they are never attached to
the class. -/
def model_service_methods : List String :=
  ["__init__", "load_model", "load_kg_data", "_create_demo_kg",
   "reconstruct_text", "_apply_masks_to_text", "_get_kg_context",
   "translate_text", "_demo_translation", "query_assistant",
   "_explain_sutras", "_explain_translation", "_explain_grammar"]

/-- Whether `generate_intelligent_candidates` returns normally or raises
(the generator is an external neural component; its sampled outputs are
the `draws` parameter below). -/
inductive GenBehavior
  | succeeds
  | raises
deriving DecidableEq

/-- Result of `ModelService.reconstruct_text`: a JSON body with the
response candidates, or an `HTTPException`. -/
inductive ModelServiceResult
  | ok (candidates : List Candidate)
  | httpError (status_code : ℕ) (detail : String)
deriving DecidableEq

/-- Embedding of `ModelService.reconstruct_text` (src/models/service.py lines 128-199).
With no model loaded the inner `HTTPException(500, "Model not loaded")`
is caught by the outer handler and re-raised as
`HTTPException(500, str(e))`. Masks are filtered by the requested ids;
an empty selection returns `{"candidates": [], "timings": {...}}` as a
success. When generation raises, the handler calls
`self._generate_fallback_candidates`, a name never bound to the class
(see `model_service_methods`), so an `AttributeError` escapes to the
outer handler and the request ends as HTTP 500. -/
def service_reconstruct_text (model_loaded : Bool) (ocr_masks : List Mask)
    (mask_ids : List String) (gen : GenBehavior) (draws : List (String × String))
    (grammar_out conf_out : Option ℚ) (kg_context : Option Bool)
    (n_candidates : ℕ) : ModelServiceResult :=
  if !model_loaded then .httpError 500 "500: Model not loaded"
  else
    let selected_masks := ocr_masks.filter (fun m => mask_ids.contains m.mask_id)
    if selected_masks.isEmpty then .ok []
    else
      match gen with
      | .succeeds =>
          .ok (generate_intelligent_candidates draws grammar_out conf_out
                kg_context n_candidates)
      | .raises => .httpError 500 "AttributeError: _generate_fallback_candidates"

/-! ### Export endpoint (src/api/server.py lines 278-331)

The stored session data is a JSON value (the dictionary placed in
`session_store` by `/upload` and optionally extended by `/reconstruct`);
`json.dumps(session_data, indent=2)` is embedded as a deterministic
serializer over that value (stdlib character escaping is elided; it is a
pure character-level function and does not affect any claim). -/

/-- A JSON value; object fields keep insertion order, as Python dicts do. -/
inductive Json where
  | null
  | bool (b : Bool)
  | num (n : ℤ)
  | str (s : String)
  | arr (items : List Json)
  | obj (fields : List (String × Json))

/-- Indentation produced by `json.dumps(..., indent=2)` at a nesting level. -/
def json_indent (level : ℕ) : String :=
  String.mk (List.replicate (2 * level) ' ')

mutual

/-- Embedding of `json.dumps(v, indent=2)` at a nesting level. -/
def json_dumps : Json → ℕ → String
  | .null, _ => "null"
  | .bool true, _ => "true"
  | .bool false, _ => "false"
  | .num n, _ => toString n
  | .str s, _ => "\"" ++ s ++ "\""
  | .arr [], _ => "[]"
  | .arr (j :: items), level =>
      "[\n" ++ json_dumps_items (j :: items) (level + 1) ++ "\n"
        ++ json_indent level ++ "]"
  | .obj [], _ => "\x7b\x7d"
  | .obj (f :: fields), level =>
      "\x7b\n" ++ json_dumps_fields (f :: fields) (level + 1) ++ "\n"
        ++ json_indent level ++ "\x7d"

/-- Comma-and-newline separated array items, each indented. -/
def json_dumps_items : List Json → ℕ → String
  | [], _ => ""
  | [j], level => json_indent level ++ json_dumps j level
  | j :: j' :: rest, level =>
      json_indent level ++ json_dumps j level ++ ",\n"
        ++ json_dumps_items (j' :: rest) level

/-- Comma-and-newline separated object fields, each indented. -/
def json_dumps_fields : List (String × Json) → ℕ → String
  | [], _ => ""
  | [(k, v)], level =>
      json_indent level ++ "\"" ++ k ++ "\": " ++ json_dumps v level
  | (k, v) :: f :: rest, level =>
      json_indent level ++ "\"" ++ k ++ "\": " ++ json_dumps v level ++ ",\n"
        ++ json_dumps_fields (f :: rest) level

end

/-- Embedding of `session_data.get(key, default)` on a JSON object. -/
def json_get (j : Json) (key : String) (default : Json) : Json :=
  match j with
  | .obj fields => (List.lookup key fields).getD default
  | _ => default

/-- Embedding of `generate_tei_xml` (src/api/server.py lines 309-331): a fixed TEI
template around the text field of the ocr_data entry; `now` is the
`datetime.now().isoformat()` timestamp interpolated into the header. -/
def generate_tei_xml (session_data : Json) (now : String) : String :=
  let text := match json_get (json_get session_data "ocr_data" (.obj [])) "text" (.str "") with
    | .str s => s
    | _ => ""
  "<?xml version=\"1.0\" encoding=\"UTF-8\"?>\n<TEI xmlns=\"http://www.tei-c.org/ns/1.0\">\n"
    ++ "    <teiHeader>\n        <fileDesc>\n            <titleStmt>\n"
    ++ "                <title>Sanskrit Manuscript Reconstruction</title>\n"
    ++ "            </titleStmt>\n            <publicationStmt>\n"
    ++ "                <p>Generated by SMRP on " ++ now ++ "</p>\n"
    ++ "            </publicationStmt>\n        </fileDesc>\n    </teiHeader>\n"
    ++ "    <text>\n        <body>\n            <div type=\"manuscript\">\n"
    ++ "                <p>" ++ text ++ "</p>\n"
    ++ "            </div>\n        </body>\n    </text>\n</TEI>"

/-- Embedding of `export_results` (src/api/server.py lines 278-307). The handler never
writes to `session_store`, so the store is returned unchanged alongside
the response. As in the gateway reconstruct handler, the trailing
`except Exception` catches the own `HTTPException` values of the handler and
re-raises them as `HTTPException(500, str(e))`. -/
def export_results (session_store : List (String × Json)) (image_id : String)
    (format : String) (now : String) :
    Except (ℕ × String) String × List (String × Json) :=
  match List.lookup image_id session_store with
  | none => (.error (500, "404: Session not found"), session_store)
  | some session_data =>
      if format == "json" then
        (.ok (json_dumps session_data 0), session_store)
      else if format == "tei" then
        (.ok (generate_tei_xml session_data now), session_store)
      else
        (.error (500, "400: Unsupported format"), session_store)

/-! ### Concrete fixtures (the demo session data of backend_server.py) -/

/-- The demo masks stored by `/upload` when OCR is unavailable. -/
def demo_masks : List Mask :=
  [{ mask_id := "mask_0", bbox := [150, 200, 80, 25] },
   { mask_id := "mask_1", bbox := [300, 200, 60, 25] },
   { mask_id := "mask_2", bbox := [450, 200, 70, 25] }]

/-- The demo session stored by `/upload` when OCR is unavailable. -/
def demo_session : Session :=
  { ocr_text_preview := "राम वनं गच्छति। सीता गृहे तिष्ठति। धर्मो रक्षति रक्षितः।"
    masks := demo_masks }

/-- A session store holding one registered session. -/
def demo_store : List (String × Session) := [("s1", demo_session)]

/-- Sampled generator outputs for concrete runs. -/
def demo_draws : List (String × String) :=
  [("गच्छति", "conservative"), ("तिष्ठति", "creative"), ("रक्षति", "memory_guided")]

/-- The candidate object built for the draw ("गच्छति", "conservative")
when no context outputs and no KG context are available. -/
def demo_generated_candidate : Candidate :=
  { text := "गच्छति"
    strategy := "conservative"
    scores := calculate_candidate_scores none none none }

/-- A stored gateway session value, shaped like the dictionary written by
the gateway `/upload` endpoint. -/
def demo_json_session : Json :=
  .obj [("file_path", .str "data/uploads/s1_leaf.jpg"),
        ("ocr_data", .obj [("text", .str "राम वनं गच्छति")]),
        ("created_at", .str "2026-10-12T00:00:00")]

/-- A gateway session store holding one registered session. -/
def demo_json_store : List (String × Json) := [("s1", demo_json_session)]

/-! ### Helper lemmas -/

/-- The morphology check of the source accepts every non-empty token: both
branches after the emptiness test return True. -/
theorem is_morphologically_valid_eq (t : String) :
    is_morphologically_valid t = !(t == "") := by
  unfold is_morphologically_valid
  by_cases h : t == "" <;> simp [h]

/-- The sandhi check of the source accepts every pair: every branch
returns True. -/
theorem is_valid_sandhi_eq (a b : String) : is_valid_sandhi a b = true := by
  unfold is_valid_sandhi
  split
  · rfl
  · split
    · split <;> rfl
    · rfl

/-- No adjacent pair is ever flagged as a sandhi violation. -/
theorem sandhi_violations_nil (tokens : List String) :
    (adjacent_pairs tokens).filter (fun p => !is_valid_sandhi p.1 p.2) = [] := by
  apply List.filter_eq_nil_iff.mpr
  intro p _
  simp [is_valid_sandhi_eq]

/-- The tokens flagged by the morphology loop are exactly the empty ones. -/
theorem morph_violations_eq (tokens : List String) :
    tokens.filter (fun t => !is_morphologically_valid t) =
      tokens.filter (fun t => t == "") := by
  apply List.filter_congr
  intro t _
  simp [is_morphologically_valid_eq]

/-- Closed form of `is_valid_sequence`: the violation list names exactly
the empty tokens, and `ok` is their absence. -/
theorem is_valid_sequence_eq (tokens : List String) :
    is_valid_sequence tokens =
      ((tokens.filter (fun t => t == "")).isEmpty,
        (tokens.filter (fun t => t == "")).map (fun t => "Invalid morphology: " ++ t)) := by
  unfold is_valid_sequence
  rw [morph_violations_eq, sandhi_violations_nil]
  simp only [List.map_nil, List.append_nil, Prod.mk.injEq]
  refine ⟨?_, trivial⟩
  generalize tokens.filter (fun t => t == "") = l
  cases l <;> simp

/-- Every candidate returned by `generate_intelligent_candidates` carries
the scores dictionary built by `_calculate_candidate_scores`. -/
theorem mem_generate_scores (draws : List (String × String))
    (grammar_out conf_out : Option ℚ) (kg_context : Option Bool) (n : ℕ)
    (cand : Candidate)
    (h : cand ∈ generate_intelligent_candidates draws grammar_out conf_out kg_context n) :
    cand.scores = calculate_candidate_scores grammar_out conf_out kg_context := by
  unfold generate_intelligent_candidates rank_candidates at h
  have h2 : cand ∈ mk_candidates draws grammar_out conf_out kg_context :=
    (List.mem_insertionSort cand_order).mp (List.mem_of_mem_take h)
  unfold mk_candidates at h2
  obtain ⟨d, _, rfl⟩ := List.mem_map.mp h2
  rfl

/-- Inserting a candidate commutes with filtering on a combined-score
value: the skipped elements all have a strictly larger key. -/
theorem filter_key_orderedInsert (q : ℚ) (a : Candidate) (l : List Candidate) :
    (List.orderedInsert cand_order a l).filter
        (fun c => decide (c.scores.combined = q)) =
      if a.scores.combined = q then
        a :: l.filter (fun c => decide (c.scores.combined = q))
      else l.filter (fun c => decide (c.scores.combined = q)) := by
  induction l with
  | nil => by_cases h : a.scores.combined = q <;> simp [List.orderedInsert, h]
  | cons b t ih =>
      rw [List.orderedInsert]
      by_cases hr : cand_order a b
      · rw [if_pos hr]
        by_cases h : a.scores.combined = q <;> simp [h, List.filter_cons]
      · rw [if_neg hr]
        by_cases h : a.scores.combined = q
        · have hb : ¬b.scores.combined = q := by
            intro hbq
            exact hr (le_of_eq (h ▸ hbq))
          simp [List.filter_cons, hb, h, ih]
        · by_cases hb : b.scores.combined = q <;> simp [List.filter_cons, hb, h, ih]

/-- Stability of the ranking sort: filtering the sorted list on any
combined-score value returns those candidates in generation order. -/
theorem filter_key_rank (q : ℚ) (l : List Candidate) :
    (rank_candidates l).filter (fun c => decide (c.scores.combined = q)) =
      l.filter (fun c => decide (c.scores.combined = q)) := by
  unfold rank_candidates
  induction l with
  | nil => rfl
  | cons a t ih =>
      rw [List.insertionSort, filter_key_orderedInsert]
      by_cases h : a.scores.combined = q <;> simp [h, ih, List.filter_cons]

/-! ### Claim theorems -/

/-- C3, counterexample: the claim asserts a constructed sequence whose token
has a known-invalid ending yields ok = false. In the source no ending is
invalid: the token "गज" ends with no entry of the valid-endings table,
yet `is_valid_sequence` accepts the sequence with no violations, because
`_is_morphologically_valid` falls through to `return True` for unknown
patterns. -/
theorem claim_C3_counterexample :
    is_valid_sequence ["गज"] = (true, []) ∧ has_known_ending "गज" = false := by
  decide

/-- C3, amended: `validate` applies the morphology check to every token and
the sandhi check to every adjacent pair, and ok = true exactly when the
violations list is empty; but the morphology check accepts every non-empty
token (unknown and known-invalid endings included) and the sandhi check
accepts every pair, so violations name exactly the empty tokens and every
sequence of non-empty tokens yields ok = true. -/
theorem claim_C3 (tokens : List String) :
    ((is_valid_sequence tokens).1 = true ↔ (is_valid_sequence tokens).2 = []) ∧
    (is_valid_sequence tokens).2 =
      (tokens.filter (fun t => t == "")).map (fun t => "Invalid morphology: " ++ t) ∧
    ((∀ t ∈ tokens, t ≠ "") → is_valid_sequence tokens = (true, [])) := by
  refine ⟨?_, ?_, ?_⟩
  · rw [is_valid_sequence_eq]
    simp [List.isEmpty_iff]
  · rw [is_valid_sequence_eq]
  · intro h
    rw [is_valid_sequence_eq]
    have hf : tokens.filter (fun t => t == "") = [] :=
      List.filter_eq_nil_iff.mpr (fun t ht => by simp [h t ht])
    rw [hf]
    rfl

/-- C3, witness: the amended statement instantiated on the two-token
sequence ["राम", "वनम्"]. -/
theorem claim_C3_witness :
    (((is_valid_sequence ["राम", "वनम्"]).1 = true ↔
        (is_valid_sequence ["राम", "वनम्"]).2 = []) ∧
      (is_valid_sequence ["राम", "वनम्"]).2 =
        ((["राम", "वनम्"] : List String).filter (fun t => t == "")).map
          (fun t => "Invalid morphology: " ++ t) ∧
      ((∀ t ∈ (["राम", "वनम्"] : List String), t ≠ "") →
        is_valid_sequence ["राम", "वनम्"] = (true, []))) :=
  claim_C3 ["राम", "वनम्"]

/-- C5: every returned candidate list has length at most the requested
count, is sorted by combined score descending, is the first-n part of the
stable ranking of the generated pool, and that ranking preserves the
generation order of candidates with equal combined score; the fixed
backend fallback list is likewise sorted descending, with at most the
hardcoded requested count of 5 candidates. -/
theorem claim_C5 (draws : List (String × String)) (grammar_out conf_out : Option ℚ)
    (kg_context : Option Bool) (n : ℕ) :
    (generate_intelligent_candidates draws grammar_out conf_out kg_context n).length ≤ n ∧
    List.Sorted cand_order
      (generate_intelligent_candidates draws grammar_out conf_out kg_context n) ∧
    generate_intelligent_candidates draws grammar_out conf_out kg_context n =
      (rank_candidates (mk_candidates draws grammar_out conf_out kg_context)).take n ∧
    (∀ q : ℚ,
      (rank_candidates (mk_candidates draws grammar_out conf_out kg_context)).filter
          (fun c => decide (c.scores.combined = q)) =
        (mk_candidates draws grammar_out conf_out kg_context).filter
          (fun c => decide (c.scores.combined = q))) ∧
    List.Chain' (fun a b => b.scores.combined ≤ a.scores.combined)
      generate_enhanced_candidates.candidates ∧
    generate_enhanced_candidates.candidates.length ≤ 5 := by
  refine ⟨?_, ?_, rfl, fun q => filter_key_rank q _, ?_, by
    simp [generate_enhanced_candidates, sanskrit_candidates]⟩
  · rw [generate_intelligent_candidates, List.length_take]
    exact min_le_left _ _
  · exact List.Pairwise.sublist (List.take_sublist _ _)
      (List.sorted_insertionSort cand_order _)
  · simp only [generate_enhanced_candidates, sanskrit_candidates, List.chain'_cons,
      List.chain'_singleton, and_true]
    norm_num

/-- C6, counterexample: the claim asserts no two returned candidates share
the same normalized text. When the sampler draws the same word twice, both
copies are returned: no deduplication step exists in the source. -/
theorem claim_C6_counterexample :
    (generate_intelligent_candidates [("राम", "conservative"), ("राम", "creative")]
        none none none 5).map (fun c => c.text) = ["राम", "राम"] := by
  simp [generate_intelligent_candidates, rank_candidates, mk_candidates,
    List.insertionSort, List.orderedInsert, cand_order]

/-- C6, amended: the generator performs no deduplication: the ranked list
is a permutation of the full generated pool (duplicates by normalized
text included), and the returned list is its first n elements. -/
theorem claim_C6 (draws : List (String × String)) (grammar_out conf_out : Option ℚ)
    (kg_context : Option Bool) (n : ℕ) :
    (rank_candidates (mk_candidates draws grammar_out conf_out kg_context)).Perm
      (mk_candidates draws grammar_out conf_out kg_context) ∧
    generate_intelligent_candidates draws grammar_out conf_out kg_context n =
      (rank_candidates (mk_candidates draws grammar_out conf_out kg_context)).take n :=
  ⟨List.perm_insertionSort cand_order _, rfl⟩

/-- C4, counterexample: the hardcoded fallback candidate cand_0 of
backend_server.generate_enhanced_candidates carries combined = 0.95,
while the claimed weighted blend of its other score fields (reading its
kg_confidence as the kg-compliance score and its uncertainty confidence
as the model confidence; the candidate has no model_confidence or
kg_compliance keys at all) is 0.949. -/
theorem claim_C4_counterexample :
    ∃ cand ∈ generate_enhanced_candidates.candidates,
      cand.scores.combined ≠
        3 / 10 * cand.scores.lm_score + 3 / 10 * cand.scores.grammar_score +
        2 / 10 * cand.uncertainty_scores.confidence +
        2 / 10 * cand.scores.kg_confidence := by
  refine ⟨_, List.mem_cons_self _ _, ?_⟩
  show (95 : ℚ) / 100 ≠
    3 / 10 * (94 / 100) + 3 / 10 * (95 / 100) + 2 / 10 * (95 / 100) + 2 / 10 * (96 / 100)
  norm_num

/-- C4, amended: every candidate returned by the full generator satisfies
combined = 0.3·lm + 0.3·grammar + 0.2·model-confidence + 0.2·kg-compliance,
as computed by `_calculate_candidate_scores`; the identity fails for the
hardcoded backend fallback candidates. -/
theorem claim_C4 (draws : List (String × String)) (grammar_out conf_out : Option ℚ)
    (kg_context : Option Bool) (n : ℕ) (cand : Candidate)
    (h : cand ∈ generate_intelligent_candidates draws grammar_out conf_out kg_context n) :
    cand.scores.combined =
      3 / 10 * cand.scores.lm_score + 3 / 10 * cand.scores.grammar_score +
      2 / 10 * cand.scores.model_confidence + 2 / 10 * cand.scores.kg_compliance := by
  rw [mem_generate_scores draws grammar_out conf_out kg_context n cand h]
  rfl

/-- C4, witness: the amended identity at the single candidate returned by
a concrete one-draw run. -/
theorem claim_C4_witness :
    demo_generated_candidate.scores.combined =
      3 / 10 * demo_generated_candidate.scores.lm_score +
      3 / 10 * demo_generated_candidate.scores.grammar_score +
      2 / 10 * demo_generated_candidate.scores.model_confidence +
      2 / 10 * demo_generated_candidate.scores.kg_compliance :=
  claim_C4 [("गच्छति", "conservative")] none none none 1 demo_generated_candidate
    (by simp [generate_intelligent_candidates, rank_candidates, mk_candidates,
      demo_generated_candidate, List.insertionSort, List.orderedInsert])

/-- C1, counterexample: in the gateway handler
(src/api/server.py reconstruct_text), backend trouble on an existing
session is surfaced to the caller as a hard failure (HTTP 500), not as a
degraded result, so the claim fails for those reconstruct requests. -/
theorem claim_C1_counterexample :
    (api_reconstruct_text demo_store "s1" .unreachable true).1 =
      .httpError 500 "connection failed" ∧
    List.lookup "s1" demo_store = some demo_session := by
  decide

/-- C1, amended: in the main backend handler
(backend_server.reconstruct_text), failure of the generation backend on an
existing session is never surfaced as a hard failure: the caller receives
the fixed fallback payload, whose candidate list is non-empty and whose
metadata carries fallback_mode = true. The gateway handler instead
surfaces backend failure as HTTP 500. -/
theorem claim_C1 (sessions : List (String × Session)) (session_id : String)
    (backend : BackendOutcome) (connected : Bool) (s : Session)
    (hs : List.lookup session_id sessions = some s)
    (hb : ∀ cands, backend ≠ .responds cands) :
    (reconstruct_text sessions session_id backend connected).1 =
      .fallback generate_enhanced_candidates ∧
    generate_enhanced_candidates.candidates ≠ [] ∧
    generate_enhanced_candidates.fallback_mode = true := by
  refine ⟨?_, by simp [generate_enhanced_candidates, sanskrit_candidates], rfl⟩
  cases backend with
  | responds cands => exact absurd rfl (hb cands)
  | errorStatus code => simp [reconstruct_text, hs, call_model_service]
  | unreachable => simp [reconstruct_text, hs, call_model_service]

/-- C1, witness: the amended statement at the registered demo session with
the model service unreachable. -/
theorem claim_C1_witness :
    (reconstruct_text demo_store "s1" .unreachable true).1 =
      .fallback generate_enhanced_candidates ∧
    generate_enhanced_candidates.candidates ≠ [] ∧
    generate_enhanced_candidates.fallback_mode = true :=
  claim_C1 demo_store "s1" .unreachable true demo_session (by decide)
    (fun cands h => by cases h)

/-- C2, counterexample: a reconstruct request on an existing session whose
mask_ids match none of the stored masks makes the model service return a
successful empty candidate list, which the backend passes through: an
empty-but-successful result on an existing session, violating the claim. -/
theorem claim_C2_counterexample :
    service_reconstruct_text true demo_masks ["no_such_mask"] .succeeds demo_draws
        none none none 5 = .ok [] ∧
    (reconstruct_text demo_store "s1" (.responds []) true).1 = .fromModel [] ∧
    (reconstruct_text demo_store "s1" (.responds []) true).1 ≠ .sessionNotFound := by
  decide

/-- C2, amended: a reconstruct result contains at least one candidate
unless the referenced session does not exist — in which case the outcome
is the explicit not-found dictionary, never an empty-but-successful list —
or none of the requested mask ids match a stored mask, in which case the
model service returns an empty successful result. -/
theorem claim_C2 (sessions : List (String × Session)) (session_id : String)
    (backend : BackendOutcome) (connected : Bool) (masks : List Mask)
    (mask_ids : List String) (draws : List (String × String))
    (grammar_out conf_out : Option ℚ) (kg_context : Option Bool) (n : ℕ)
    (hsel : (masks.filter (fun m => mask_ids.contains m.mask_id)).isEmpty = false)
    (hdraws : draws ≠ []) (hn : 1 ≤ n) :
    (List.lookup session_id sessions = none →
      reconstruct_text sessions session_id backend connected = (.sessionNotFound, [])) ∧
    ∃ cs, service_reconstruct_text true masks mask_ids .succeeds draws grammar_out
        conf_out kg_context n = .ok cs ∧ cs ≠ [] := by
  constructor
  · intro hnone
    simp [reconstruct_text, hnone]
  · refine ⟨generate_intelligent_candidates draws grammar_out conf_out kg_context n, ?_, ?_⟩
    · unfold service_reconstruct_text
      simp only [Bool.not_true, Bool.false_eq_true, if_false]
      rw [hsel]
      rfl
    · have hlen : (generate_intelligent_candidates draws grammar_out conf_out
          kg_context n).length = min n draws.length := by
        simp [generate_intelligent_candidates, rank_candidates, mk_candidates,
          List.length_take, List.length_insertionSort]
      have hd : 1 ≤ draws.length := List.length_pos.mpr hdraws
      refine List.length_pos.mp ?_
      rw [hlen]
      omega

/-- C2, witness: the amended statement at the demo fixtures, with the first
demo mask requested. -/
theorem claim_C2_witness :
    ((List.lookup "s1" demo_store = none →
        reconstruct_text demo_store "s1" (.responds []) true = (.sessionNotFound, [])) ∧
      ∃ cs, service_reconstruct_text true demo_masks ["mask_0"] .succeeds demo_draws
          none none none 5 = .ok cs ∧ cs ≠ []) :=
  claim_C2 demo_store "s1" (.responds []) true demo_masks ["mask_0"] demo_draws
    none none none 5 (by decide) (by decide) (by decide)

/-- C7: the theorem evaluating both handlers on an unregistered session id.
The main backend handler conforms to the claim: it returns the explicit
not-found dictionary (whose candidates list is empty, i.e. no fallback
candidates) before any event is emitted. The gateway handler exhibits the
code bug: its own catch-all converts its explicit 404 into HTTP 500 with
detail "404: Session not found" and emits an error event on the session
channel on the way. -/
theorem claim_C7 (backend : BackendOutcome) (connected : Bool) :
    reconstruct_text [] "ghost" backend connected = (.sessionNotFound, []) ∧
    api_reconstruct_text [] "ghost" backend true =
      (.httpError 500 "404: Session not found", [.error "404: Session not found"]) := by
  constructor
  · rfl
  · rfl

/-- C8: for every run of either reconstruct handler, the progress values
emitted on the session channel are non-decreasing, no progress value
follows an error event, and when a subscriber is connected a successful
run emits 100 as its last progress value. -/
theorem claim_C8 (sessions : List (String × Session)) (session_id : String)
    (backend : BackendOutcome) (connected : Bool) :
    List.Chain' (fun a b => a ≤ b)
      (progress_values (reconstruct_text sessions session_id backend connected).2) ∧
    no_progress_after_error (reconstruct_text sessions session_id backend connected).2 = true ∧
    (connected = true →
      recon_success (reconstruct_text sessions session_id backend connected).1 = true →
      (progress_values (reconstruct_text sessions session_id backend connected).2).getLast? =
        some 100) ∧
    List.Chain' (fun a b => a ≤ b)
      (progress_values (api_reconstruct_text sessions session_id backend connected).2) ∧
    no_progress_after_error (api_reconstruct_text sessions session_id backend connected).2 = true ∧
    (connected = true →
      api_success (api_reconstruct_text sessions session_id backend connected).1 = true →
      (progress_values (api_reconstruct_text sessions session_id backend connected).2).getLast? =
        some 100) := by
  cases hl : List.lookup session_id sessions <;> cases backend <;> cases connected <;>
    simp [reconstruct_text, api_reconstruct_text, hl, call_model_service, emit,
      progress_values, no_progress_after_error, recon_success, api_success]

/-- C8, witness: the statement at the registered demo session with a
responding backend and a connected subscriber. -/
theorem claim_C8_witness :
    (List.Chain' (fun a b => a ≤ b)
      (progress_values (reconstruct_text demo_store "s1" (.responds []) true).2) ∧
    no_progress_after_error (reconstruct_text demo_store "s1" (.responds []) true).2 = true ∧
    (true = true →
      recon_success (reconstruct_text demo_store "s1" (.responds []) true).1 = true →
      (progress_values (reconstruct_text demo_store "s1" (.responds []) true).2).getLast? =
        some 100) ∧
    List.Chain' (fun a b => a ≤ b)
      (progress_values (api_reconstruct_text demo_store "s1" (.responds []) true).2) ∧
    no_progress_after_error (api_reconstruct_text demo_store "s1" (.responds []) true).2 = true ∧
    (true = true →
      api_success (api_reconstruct_text demo_store "s1" (.responds []) true).1 = true →
      (progress_values (api_reconstruct_text demo_store "s1" (.responds []) true).2).getLast? =
        some 100)) :=
  claim_C8 demo_store "s1" (.responds []) true

/-- C9: exporting a registered session as json returns the serialization
of the stored session value, leaves the session store untouched, and
therefore a second export without an intervening reconstruct returns the
byte-identical output. -/
theorem claim_C9 (session_store : List (String × Json)) (image_id : String)
    (now1 now2 : String) (data : Json)
    (h : List.lookup image_id session_store = some data) :
    (export_results session_store image_id "json" now1).1 = .ok (json_dumps data 0) ∧
    (export_results session_store image_id "json" now1).2 = session_store ∧
    (export_results (export_results session_store image_id "json" now1).2
        image_id "json" now2).1 =
      (export_results session_store image_id "json" now1).1 := by
  refine ⟨?_, ?_, ?_⟩ <;> simp [export_results, h]

/-- C9, witness: two json exports of the registered demo gateway session. -/
theorem claim_C9_witness :
    (export_results demo_json_store "s1" "json" "t1").1 =
      .ok (json_dumps demo_json_session 0) ∧
    (export_results demo_json_store "s1" "json" "t1").2 = demo_json_store ∧
    (export_results (export_results demo_json_store "s1" "json" "t1").2
        "s1" "json" "t2").1 =
      (export_results demo_json_store "s1" "json" "t1").1 :=
  claim_C9 demo_json_store "s1" "t1" "t2" demo_json_session rfl

/-- C10: when generation raises, the fallback path of the model service
handler fails — `_generate_fallback_candidates` is not among the methods
bound to ModelService, being defined after the module main guard — so
`ModelService.reconstruct_text` ends in HTTP 500 instead of returning
fallback candidates. -/
theorem claim_C10 (masks : List Mask) (mask_ids : List String)
    (draws : List (String × String)) (grammar_out conf_out : Option ℚ)
    (kg_context : Option Bool) (n : ℕ)
    (hsel : (masks.filter (fun m => mask_ids.contains m.mask_id)).isEmpty = false) :
    service_reconstruct_text true masks mask_ids .raises draws grammar_out conf_out
        kg_context n =
      .httpError 500 "AttributeError: _generate_fallback_candidates" ∧
    "_generate_fallback_candidates" ∉ model_service_methods := by
  refine ⟨?_, by decide⟩
  unfold service_reconstruct_text
  simp only [Bool.not_true, Bool.false_eq_true, if_false]
  rw [hsel]
  rfl

/-- C10, witness: the statement at the demo masks with mask_0 requested. -/
theorem claim_C10_witness :
    (service_reconstruct_text true demo_masks ["mask_0"] .raises demo_draws
        none none none 5 =
      .httpError 500 "AttributeError: _generate_fallback_candidates" ∧
    "_generate_fallback_candidates" ∉ model_service_methods) :=
  claim_C10 demo_masks ["mask_0"] demo_draws none none none 5 (by decide)

end PaniniEye
